import Mathlib

/-
  Formal model of the Eco-logistics allocation and consolidation engine.

  Shallow embedding of the JavaScript controllers:
    - src/controllers/synergyController.js  (cargo compatibility, advisory search)
    - src/controllers/routeController.js    (greedy allocation; absorption detection;
                                             handshake / relay rule; acceptance state machine)

  Conventions:
    - JS numbers are modelled as rationals.
    - Nullable fields are Option values.  The JS truthiness operator (x || d) maps
      none and 0 to the default d; this is modelled explicitly by jsOr below.
    - Store query results (filtered, ordered lists) are passed in as lists in store
      return order; the declarative where-clauses of the queries are modelled as
      Lean filters over those lists.
    - Status fields are the literal strings used by the code.
-/

/- JS (x || d) on a nullable number: null, undefined and 0 are falsy. -/
def jsOr (x : Option ℚ) (d : ℚ) : ℚ :=
  match x with
  | none => d
  | some v => if v = 0 then d else v

/- Model of JavaScript String.prototype.toUpperCase restricted to the ASCII
   strings used as cargo types (structural recursion so that it evaluates). -/
def toUpperChars : List Char → List Char
  | [] => []
  | c :: cs => c.toUpper :: toUpperChars cs

def jsToUpperCase (s : String) : String :=
  String.mk (toUpperChars s.data)

/- src/controllers/synergyController.js lines 3-11: the authored table. -/
def CARGO_COMPATIBILITY : List (String × List String) :=
  [("FOOD", ["PHARMA", "ELECTRONICS"]),
   ("PHARMA", ["FOOD", "ELECTRONICS"]),
   ("ELECTRONICS", ["FOOD", "PHARMA", "FRAGILE"]),
   ("CHEMICALS", ["INDUSTRIAL"]),
   ("INDUSTRIAL", ["CHEMICALS"]),
   ("FRAGILE", ["ELECTRONICS", "CLOTHING"]),
   ("CLOTHING", ["FRAGILE"])]

def cargoTableKeys : List String := CARGO_COMPATIBILITY.map Prod.fst

/- Object-key lookup CARGO_COMPATIBILITY[k]. -/
def cargoLookup (k : String) : Option (List String) :=
  (CARGO_COMPATIBILITY.find? (fun p => p.1 = k)).map Prod.snd

/- src/controllers/synergyController.js lines 31-37.
   JS:  if (!type1 || !type2) return true;
        if (type1 === type2) return true;
        const compatibility = CARGO_COMPATIBILITY[type1.toUpperCase()];
        return compatibility && compatibility.includes(type2.toUpperCase());
   A missing argument or empty string is falsy; an absent table entry makes the
   final expression falsy (undefined), modelled as false. -/
def areCompatible (type1 type2 : Option String) : Bool :=
  match type1, type2 with
  | none, _ => true
  | _, none => true
  | some t1, some t2 =>
    if t1.isEmpty || t2.isEmpty then true
    else if t1 = t2 then true
    else
      match cargoLookup (jsToUpperCase t1) with
      | some compatibility => compatibility.contains (jsToUpperCase t2)
      | none => false

/- ===== RouteAllocator: src/controllers/routeController.js lines 21-156 ===== -/

structure Delivery where
  id : Nat
  courierCompanyId : String
  status : String
  timeWindowStart : ℚ
  cargoWeight : ℚ
  cargoVolumeLtrs : ℚ
  truckId : Option Nat
  driverId : Option Nat
  deriving DecidableEq

structure Truck where
  id : Nat
  ownerId : Nat
  courierCompanyId : String
  isAvailable : Bool
  registrationStatus : String
  maxWeight : Option ℚ
  maxVolume : Option ℚ
  deriving DecidableEq

/- Lines 72-73: (accumulated + delivery amount) <= (truck.limit || Infinity).
   A null limit and, by JS falsiness, a zero limit both become Infinity, so the
   comparison always succeeds on that dimension. -/
def fitsLimit (limit : Option ℚ) (x : ℚ) : Bool :=
  match limit with
  | none => true
  | some m => if m = 0 then true else if x ≤ m then true else false

structure FillResult where
  taken : List Delivery
  rest : List Delivery
  weight : ℚ
  volume : ℚ
  deriving DecidableEq

/- The inner while loop, lines 68-84: accept deliveries from the front of the
   queue while both dimensions fit, stop at the first delivery that does not. -/
def fillTruck (truck : Truck) : List Delivery → ℚ → ℚ → FillResult
  | [], w, v => ⟨[], [], w, v⟩
  | d :: ds, w, v =>
    if fitsLimit truck.maxWeight (w + d.cargoWeight)
        && fitsLimit truck.maxVolume (v + d.cargoVolumeLtrs) then
      let r := fillTruck truck ds (w + d.cargoWeight) (v + d.cargoVolumeLtrs)
      ⟨d :: r.taken, r.rest, r.weight, r.volume⟩
    else
      ⟨[], d :: ds, w, v⟩

structure Allocation where
  truck : Truck
  deliveries : List Delivery
  totalWeight : ℚ
  totalVolume : ℚ
  deriving DecidableEq

/- The outer for loop, lines 58-94: trucks in store order share one delivery
   index; a truck with zero accepted deliveries is not materialized. -/
def allocateGreedy : List Truck → List Delivery → List Allocation × List Delivery
  | [], ds => ([], ds)
  | t :: ts, ds =>
    if ds.isEmpty then ([], [])
    else
      let r := fillTruck t ds 0 0
      let rec2 := allocateGreedy ts r.rest
      if r.taken.isEmpty then rec2
      else (⟨t, r.taken, r.weight, r.volume⟩ :: rec2.1, rec2.2)

/- Query of lines 30-36 (where-clause; ordering by timeWindowStart is the
   store collaborator and the list is taken in store return order). -/
def pendingDeliveriesFor (cid : String) (ds : List Delivery) : List Delivery :=
  ds.filter (fun d => decide (d.courierCompanyId = cid) && decide (d.status = "PENDING"))

/- Query of lines 43-50. -/
def availableTrucksFor (cid : String) (ts : List Truck) : List Truck :=
  ts.filter (fun t =>
    decide (t.courierCompanyId = cid) && t.isAvailable
      && decide (t.registrationStatus = "APPROVED"))

/- Transaction effect of lines 125-133 on the delivery table. -/
def applyAllocations (allocs : List Allocation) (ds : List Delivery) : List Delivery :=
  ds.map (fun d =>
    match allocs.find? (fun a => a.deliveries.any (fun x => x.id == d.id)) with
    | some a =>
      { d with truckId := some a.truck.id, driverId := some a.truck.ownerId,
               status := "ALLOCATED" }
    | none => d)

/- Transaction effect of lines 136-139 on the truck table. -/
def applyTruckUpdates (allocs : List Allocation) (ts : List Truck) : List Truck :=
  ts.map (fun t =>
    if allocs.any (fun a => a.truck.id == t.id) then { t with isAvailable := false } else t)

inductive AllocateResult where
  | validationError
  | nothingToDo
  | capacityError
  | allocated (allocations : List Allocation) (deliveriesAfter : List Delivery)
  deriving DecidableEq

/- Top level of allocateRoutes, lines 21-156.  The missing-body-field check
   (!courierCompanyId) is falsy for both an absent and an empty identifier. -/
def allocateRoutes (courierCompanyId : Option String) (deliveries : List Delivery)
    (trucks : List Truck) : AllocateResult :=
  match courierCompanyId with
  | none => .validationError
  | some cid =>
    if cid.isEmpty then .validationError
    else
      let pendingDeliveries := pendingDeliveriesFor cid deliveries
      if pendingDeliveries.isEmpty then .nothingToDo
      else
        let availableTrucks := availableTrucksFor cid trucks
        if availableTrucks.isEmpty then .capacityError
        else
          let g := allocateGreedy availableTrucks pendingDeliveries
          .allocated g.1 (applyAllocations g.1 deliveries)

/- ===== OpportunityLedger accept: src/controllers/routeController.js 574-609 ===== -/

structure AbsorptionOpportunity where
  route1Id : Nat
  route2Id : Nat
  status : String
  acceptedByRoute1At : Option ℚ
  acceptedByRoute2At : Option ℚ
  deriving DecidableEq

inductive AcceptResult where
  | notFound
  | invalidRoute
  | ok (opportunity : AbsorptionOpportunity)
  deriving DecidableEq

def acceptSynergy (opportunity : Option AbsorptionOpportunity) (routeId : Nat)
    (now : ℚ) : AcceptResult :=
  match opportunity with
  | none => .notFound
  | some opp =>
    if opp.route1Id = routeId then
      .ok { opp with
              status := if opp.status = "ACCEPTED_BY_ROUTE2" then "BOTH_ACCEPTED"
                        else "ACCEPTED_BY_ROUTE1",
              acceptedByRoute1At := some now }
    else if opp.route2Id = routeId then
      .ok { opp with
              status := if opp.status = "ACCEPTED_BY_ROUTE1" then "BOTH_ACCEPTED"
                        else "ACCEPTED_BY_ROUTE2",
              acceptedByRoute2At := some now }
    else .invalidRoute

/- ===== RelayAssigner and handshake: src/controllers/routeController.js 474-548 ===== -/

structure Driver where
  id : Nat
  name : String
  totalDistanceKm : Option ℚ
  totalHoursWorked : Option ℚ
  deriving DecidableEq

/- Lines 497-498: workload = (totalDistanceKm || 0) + (totalHoursWorked || 0). -/
def workload (d : Driver) : ℚ :=
  jsOr d.totalDistanceKm 0 + jsOr d.totalHoursWorked 0

structure RelayTruck where
  id : Nat
  owner : Driver
  deriving DecidableEq

structure RelayResult where
  longHaulDriver : Driver
  shortHaulDriver : Driver
  masterTruckId : Nat
  deriving DecidableEq

/- Lines 500-509: the driver with greater-or-equal workload wins, his truck
   becomes the master truck. -/
def relayAssign (driver1 driver2 : Driver) (truck1 truck2 : RelayTruck) : RelayResult :=
  if workload driver1 ≥ workload driver2 then ⟨driver1, driver2, truck1.id⟩
  else ⟨driver2, driver1, truck2.id⟩

structure HandshakeOpportunity where
  route1Id : Nat
  route2Id : Nat
  route1Truck : RelayTruck
  route2Truck : RelayTruck
  status : String
  deriving DecidableEq

structure HandshakeDelivery where
  id : Nat
  optimizedRouteId : Option Nat
  truckId : Option Nat
  driverId : Option Nat
  status : String
  deriving DecidableEq

def defaultHandshakeDelivery : HandshakeDelivery :=
  ⟨0, none, none, none, ""⟩

inductive HandshakeResult where
  | notFound
  | completed (longHaulDriver shortHaulDriver : Driver)
      (opportunity : HandshakeOpportunity) (deliveries : List HandshakeDelivery)
  deriving DecidableEq

/- Lines 474-548.  The transaction of lines 512-527 marks the opportunity
   COMPLETED and updates every delivery whose optimizedRouteId equals route2Id
   (unconditionally route 2, whichever driver won the relay rule). -/
def handleHandshake (opportunity : Option HandshakeOpportunity)
    (deliveries : List HandshakeDelivery) : HandshakeResult :=
  match opportunity with
  | none => .notFound
  | some opp =>
    let driver1 := opp.route1Truck.owner
    let driver2 := opp.route2Truck.owner
    let r := relayAssign driver1 driver2 opp.route1Truck opp.route2Truck
    .completed r.longHaulDriver r.shortHaulDriver
      { opp with status := "COMPLETED" }
      (deliveries.map (fun d =>
        if d.optimizedRouteId = some opp.route2Id then
          { d with truckId := some r.masterTruckId,
                   driverId := some r.longHaulDriver.id,
                   status := "ABSORPTION_TRANSFERRED" }
        else d))

def HandshakeResult.deliveriesAfter : HandshakeResult → List HandshakeDelivery
  | .notFound => []
  | .completed _ _ _ ds => ds

def HandshakeResult.statusAfter : HandshakeResult → Option String
  | .notFound => none
  | .completed _ _ opp _ => some opp.status

def HandshakeResult.assignedDriver : HandshakeResult → Option Driver
  | .notFound => none
  | .completed lh _ _ _ => some lh

/- ===== ProximityMatcher detect: src/controllers/routeController.js 354-468 ===== -/

structure DetectRoute where
  id : Nat
  deliveryIds : List Nat
  deriving DecidableEq

/- A truck row as seen by one detect invocation: dist is the haversine distance
   from the reported position, computed by the geospatial query of lines
   372-381; activeRoutes are the optimizedRoutes with status ACTIVE. -/
structure DetectTruck where
  id : Nat
  dist : ℚ
  activeRoutes : List DetectRoute
  maxWeight : Option ℚ
  maxVolume : Option ℚ
  currentWeight : Option ℚ
  currentVolume : Option ℚ
  co2PerKm : Option ℚ
  deriving DecidableEq

/- A VirtualHub row; dist is the haversine distance from the reported position
   as computed by the query of lines 395-404. -/
structure VirtualHub where
  id : Nat
  dist : ℚ
  deriving DecidableEq

structure DetectedOpportunity where
  route1Id : Nat
  route2Id : Nat
  nearestHubId : Nat
  totalDistanceSaved : ℚ
  potentialCarbonSaved : ℚ
  spaceRequiredWeight : ℚ
  spaceRequiredVolume : ℚ
  eligibleDeliveryIds : List Nat
  status : String
  deriving DecidableEq

/- Hub query, lines 395-404: filter dist < 5, LIMIT 1, no ordering clause, so
   the first hub in store return order is taken. -/
def nearbyHubFirst (hubs : List VirtualHub) : Option VirtualHub :=
  hubs.find? (fun h => decide (h.dist < 5))

/- Candidate loop of lines 383-461 for a fixed truck A and its active route. -/
def detectLoop (truckA : DetectTruck) (routeA : DetectRoute) :
    List DetectTruck → List VirtualHub → Option DetectedOpportunity
  | [], _ => none
  | truckB :: rest, hubs =>
    match truckB.activeRoutes.head? with
    | none => detectLoop truckA routeA rest hubs
    | some routeB =>
      match nearbyHubFirst hubs with
      | none => detectLoop truckA routeA rest hubs
      | some hub =>
        let availableWeightA := jsOr truckA.maxWeight 0 - jsOr truckA.currentWeight 0
        let availableVolumeA := jsOr truckA.maxVolume 0 - jsOr truckA.currentVolume 0
        if availableWeightA ≥ truckB.currentWeight.getD 0
            ∧ availableVolumeA ≥ truckB.currentVolume.getD 0 then
          some { route1Id := routeA.id,
                 route2Id := routeB.id,
                 nearestHubId := hub.id,
                 totalDistanceSaved := truckB.dist,
                 potentialCarbonSaved := truckB.dist * jsOr truckA.co2PerKm (1/2),
                 spaceRequiredWeight := truckB.currentWeight.getD 0,
                 spaceRequiredVolume := truckB.currentVolume.getD 0,
                 eligibleDeliveryIds := routeB.deliveryIds,
                 status := "PENDING" }
        else detectLoop truckA routeA rest hubs

/- Lines 354-468: truck A must own at least one ACTIVE route; candidates are
   every other truck strictly within the 5 km geofence, in store return order. -/
def detectAbsorptionOpportunity (truckA : DetectTruck) (trucks : List DetectTruck)
    (hubs : List VirtualHub) : Option DetectedOpportunity :=
  match truckA.activeRoutes.head? with
  | none => none
  | some routeA =>
    detectLoop truckA routeA
      (trucks.filter (fun t => decide (t.id ≠ truckA.id) && decide (t.dist < 5))) hubs

/- ===== Concrete fixtures used by witnesses and counterexamples ===== -/

def demoTruck : Truck := ⟨1, 11, "C", true, "APPROVED", some 5, none⟩

def demoD1 : Delivery := ⟨1, "C", "PENDING", 0, 2, 0, none, none⟩

def demoD2 : Delivery := ⟨2, "C", "PENDING", 1, 3, 0, none, none⟩

def demoD3 : Delivery := ⟨3, "C", "PENDING", 2, 4, 0, none, none⟩

def zeroLimitTruck : Truck := ⟨1, 11, "C", true, "APPROVED", some 0, none⟩

def unitDelivery : Delivery := ⟨1, "C", "PENDING", 0, 1, 0, none, none⟩

def absTruckA : DetectTruck := ⟨1, 0, [⟨100, [5]⟩], some 10, some 10, some 0, some 0, none⟩

def absTruckB : DetectTruck := ⟨2, 4, [⟨200, [7, 8]⟩], some 9, some 9, some 3, some 2, none⟩

def twoHubs : List VirtualHub := [⟨11, 4⟩, ⟨12, 1⟩]

def farHubs : List VirtualHub := [⟨11, 9⟩]

def lightDriver : Driver := ⟨1, "A", some 1, none⟩

def busyDriver : Driver := ⟨2, "B", some 5, none⟩

def lightTruck : RelayTruck := ⟨10, lightDriver⟩

def busyTruck : RelayTruck := ⟨20, busyDriver⟩

def oppLosingRoute1 : HandshakeOpportunity := ⟨101, 102, lightTruck, busyTruck, "PENDING"⟩

def route1Delivery : HandshakeDelivery := ⟨7, some 101, some 10, some 1, "ALLOCATED"⟩

def driver50 : Driver := ⟨1, "A", some 50, none⟩

def driver20 : Driver := ⟨2, "B", some 20, none⟩

def truck50 : RelayTruck := ⟨10, driver50⟩

def truck20 : RelayTruck := ⟨20, driver20⟩

def oppScenarioC : HandshakeOpportunity := ⟨101, 102, truck50, truck20, "PENDING"⟩

def route2Delivery : HandshakeDelivery := ⟨8, some 102, some 20, some 2, "ALLOCATED"⟩

-- ===== Allocator lemmas =====

theorem fitsLimit_le {m x : ℚ} (h : fitsLimit (some m) x = true) (hm : m ≠ 0) : x ≤ m := by
  simp only [fitsLimit, if_neg hm] at h
  by_cases hx : x ≤ m
  · exact hx
  · simp [hx] at h

theorem fillTruck_taken_append_rest (t : Truck) :
    ∀ (ds : List Delivery) (w v : ℚ),
      (fillTruck t ds w v).taken ++ (fillTruck t ds w v).rest = ds := by
  intro ds
  induction ds with
  | nil => intro w v; simp [fillTruck]
  | cons d ds ih =>
    intro w v
    by_cases h : (fitsLimit t.maxWeight (w + d.cargoWeight)
        && fitsLimit t.maxVolume (v + d.cargoVolumeLtrs)) = true
    · simp [fillTruck, h, ih]
    · simp [fillTruck, h]

theorem fillTruck_invariant (t : Truck) :
    ∀ (ds : List Delivery) (w v : ℚ),
      ((fillTruck t ds w v).taken = [] ∧ (fillTruck t ds w v).weight = w ∧
        (fillTruck t ds w v).volume = v) ∨
      ((fillTruck t ds w v).taken ≠ [] ∧
        fitsLimit t.maxWeight (fillTruck t ds w v).weight = true ∧
        fitsLimit t.maxVolume (fillTruck t ds w v).volume = true) := by
  intro ds
  induction ds with
  | nil => intro w v; left; simp [fillTruck]
  | cons d ds ih =>
    intro w v
    by_cases h : (fitsLimit t.maxWeight (w + d.cargoWeight)
        && fitsLimit t.maxVolume (v + d.cargoVolumeLtrs)) = true
    · right
      rcases ih (w + d.cargoWeight) (v + d.cargoVolumeLtrs) with ⟨he, hw, hv⟩ | ⟨_, hw, hv⟩
      · refine ⟨by simp [fillTruck, h], ?_, ?_⟩
        · rw [show (fillTruck t (d :: ds) w v).weight =
              (fillTruck t ds (w + d.cargoWeight) (v + d.cargoVolumeLtrs)).weight by
            simp [fillTruck, h]]
          rw [hw]
          have h2 := h
          simp only [Bool.and_eq_true] at h2
          exact h2.1
        · rw [show (fillTruck t (d :: ds) w v).volume =
              (fillTruck t ds (w + d.cargoWeight) (v + d.cargoVolumeLtrs)).volume by
            simp [fillTruck, h]]
          rw [hv]
          have h2 := h
          simp only [Bool.and_eq_true] at h2
          exact h2.2
      · refine ⟨by simp [fillTruck, h], ?_, ?_⟩
        · rw [show (fillTruck t (d :: ds) w v).weight =
              (fillTruck t ds (w + d.cargoWeight) (v + d.cargoVolumeLtrs)).weight by
            simp [fillTruck, h]]
          exact hw
        · rw [show (fillTruck t (d :: ds) w v).volume =
              (fillTruck t ds (w + d.cargoWeight) (v + d.cargoVolumeLtrs)).volume by
            simp [fillTruck, h]]
          exact hv
    · left; simp [fillTruck, h]

theorem fillTruck_sums (t : Truck) :
    ∀ (ds : List Delivery) (w v : ℚ),
      (fillTruck t ds w v).weight =
        w + ((fillTruck t ds w v).taken.map Delivery.cargoWeight).sum ∧
      (fillTruck t ds w v).volume =
        v + ((fillTruck t ds w v).taken.map Delivery.cargoVolumeLtrs).sum := by
  intro ds
  induction ds with
  | nil => intro w v; simp [fillTruck]
  | cons d ds ih =>
    intro w v
    by_cases h : (fitsLimit t.maxWeight (w + d.cargoWeight)
        && fitsLimit t.maxVolume (v + d.cargoVolumeLtrs)) = true
    · have := ih (w + d.cargoWeight) (v + d.cargoVolumeLtrs)
      constructor
      · simp [fillTruck, h, this.1]; ring
      · simp [fillTruck, h, this.2]; ring
    · simp [fillTruck, h]

theorem fillTruck_stops (t : Truck) :
    ∀ (ds : List Delivery) (w v : ℚ) (d : Delivery) (rest : List Delivery),
      (fillTruck t ds w v).rest = d :: rest →
      (fitsLimit t.maxWeight ((fillTruck t ds w v).weight + d.cargoWeight)
        && fitsLimit t.maxVolume ((fillTruck t ds w v).volume + d.cargoVolumeLtrs)) = false := by
  intro ds
  induction ds with
  | nil => intro w v d rest h; simp [fillTruck] at h
  | cons d0 ds ih =>
    intro w v d rest h
    by_cases hfit : (fitsLimit t.maxWeight (w + d0.cargoWeight)
        && fitsLimit t.maxVolume (v + d0.cargoVolumeLtrs)) = true
    · have hr : (fillTruck t (d0 :: ds) w v).rest =
          (fillTruck t ds (w + d0.cargoWeight) (v + d0.cargoVolumeLtrs)).rest := by
        simp [fillTruck, hfit]
      have hw : (fillTruck t (d0 :: ds) w v).weight =
          (fillTruck t ds (w + d0.cargoWeight) (v + d0.cargoVolumeLtrs)).weight := by
        simp [fillTruck, hfit]
      have hv : (fillTruck t (d0 :: ds) w v).volume =
          (fillTruck t ds (w + d0.cargoWeight) (v + d0.cargoVolumeLtrs)).volume := by
        simp [fillTruck, hfit]
      rw [hr] at h
      rw [hw, hv]
      exact ih _ _ d rest h
    · have hb : (fitsLimit t.maxWeight (w + d0.cargoWeight)
          && fitsLimit t.maxVolume (v + d0.cargoVolumeLtrs)) = false :=
        Bool.eq_false_iff.mpr hfit
      have hr : (fillTruck t (d0 :: ds) w v) = ⟨[], d0 :: ds, w, v⟩ := by
        simp [fillTruck, hb]
      rw [hr] at h ⊢
      have h' : d0 :: ds = d :: rest := h
      injection h' with h1 h2
      subst h1
      exact hb

-- ===== allocateGreedy lemmas =====

theorem allocateGreedy_join :
    ∀ (ts : List Truck) (ds : List Delivery),
      ((allocateGreedy ts ds).1.map Allocation.deliveries).flatten ++ (allocateGreedy ts ds).2
        = ds := by
  intro ts
  induction ts with
  | nil => intro ds; simp [allocateGreedy]
  | cons t ts ih =>
    intro ds
    by_cases hds : ds.isEmpty
    · rw [List.isEmpty_iff] at hds
      subst hds
      simp [allocateGreedy]
    · have hds' : ds.isEmpty = false := Bool.eq_false_iff.mpr hds
      by_cases htaken : (fillTruck t ds 0 0).taken.isEmpty
      · have hrw : allocateGreedy (t :: ts) ds = allocateGreedy ts (fillTruck t ds 0 0).rest := by
          simp [allocateGreedy, hds', htaken]
        have htk : (fillTruck t ds 0 0).taken = [] := List.isEmpty_iff.mp htaken
        have hrest : (fillTruck t ds 0 0).rest = ds := by
          have := fillTruck_taken_append_rest t ds 0 0
          rw [htk] at this
          simpa using this
        rw [hrw, hrest]
        exact ih ds
      · have htk : (fillTruck t ds 0 0).taken.isEmpty = false := Bool.eq_false_iff.mpr htaken
        have hrw : allocateGreedy (t :: ts) ds =
            (⟨t, (fillTruck t ds 0 0).taken, (fillTruck t ds 0 0).weight,
              (fillTruck t ds 0 0).volume⟩ :: (allocateGreedy ts (fillTruck t ds 0 0).rest).1,
             (allocateGreedy ts (fillTruck t ds 0 0).rest).2) := by
          simp [allocateGreedy, hds', htk]
        rw [hrw]
        simp only [List.map_cons, List.flatten_cons, List.append_assoc]
        rw [ih (fillTruck t ds 0 0).rest]
        exact fillTruck_taken_append_rest t ds 0 0

theorem allocateGreedy_mem (a : Allocation) :
    ∀ (ts : List Truck) (ds : List Delivery),
      a ∈ (allocateGreedy ts ds).1 →
      a.deliveries ≠ [] ∧
      fitsLimit a.truck.maxWeight a.totalWeight = true ∧
      fitsLimit a.truck.maxVolume a.totalVolume = true ∧
      a.totalWeight = (a.deliveries.map Delivery.cargoWeight).sum ∧
      a.totalVolume = (a.deliveries.map Delivery.cargoVolumeLtrs).sum := by
  intro ts
  induction ts with
  | nil => intro ds h; simp [allocateGreedy] at h
  | cons t ts ih =>
    intro ds h
    by_cases hds : ds.isEmpty
    · rw [show allocateGreedy (t :: ts) ds = ([], []) by simp [allocateGreedy, hds]] at h
      simp at h
    · have hds' : ds.isEmpty = false := Bool.eq_false_iff.mpr hds
      by_cases htaken : (fillTruck t ds 0 0).taken.isEmpty
      · rw [show allocateGreedy (t :: ts) ds = allocateGreedy ts (fillTruck t ds 0 0).rest by
          simp [allocateGreedy, hds', htaken]] at h
        exact ih _ h
      · have htk : (fillTruck t ds 0 0).taken.isEmpty = false := Bool.eq_false_iff.mpr htaken
        rw [show allocateGreedy (t :: ts) ds =
            (⟨t, (fillTruck t ds 0 0).taken, (fillTruck t ds 0 0).weight,
              (fillTruck t ds 0 0).volume⟩ :: (allocateGreedy ts (fillTruck t ds 0 0).rest).1,
             (allocateGreedy ts (fillTruck t ds 0 0).rest).2) by
          simp [allocateGreedy, hds', htk]] at h
        rcases List.mem_cons.mp h with heq | hmem
        · subst heq
          have htk' : (fillTruck t ds 0 0).taken ≠ [] := by
            intro hc
            rw [hc] at htk
            simp at htk
          rcases fillTruck_invariant t ds 0 0 with ⟨hc, _, _⟩ | ⟨_, hw, hv⟩
          · exact absurd hc htk'
          · have hs := fillTruck_sums t ds 0 0
            refine ⟨htk', hw, hv, ?_, ?_⟩
            · simpa using hs.1
            · simpa using hs.2
        · exact ih _ hmem

-- ===== detect lemmas =====

theorem detectLoop_none_of_no_hub (truckA : DetectTruck) (routeA : DetectRoute) :
    ∀ (cands : List DetectTruck) (hubs : List VirtualHub),
      nearbyHubFirst hubs = none →
      detectLoop truckA routeA cands hubs = none := by
  intro cands
  induction cands with
  | nil => intro hubs _; simp [detectLoop]
  | cons b rest ih =>
    intro hubs hnone
    cases hb : b.activeRoutes.head? with
    | none =>
      rw [show detectLoop truckA routeA (b :: rest) hubs = detectLoop truckA routeA rest hubs by
        simp [detectLoop, hb]]
      exact ih hubs hnone
    | some routeB =>
      rw [show detectLoop truckA routeA (b :: rest) hubs = detectLoop truckA routeA rest hubs by
        simp [detectLoop, hb, hnone]]
      exact ih hubs hnone

theorem detectLoop_hub_of_some (truckA : DetectTruck) (routeA : DetectRoute) :
    ∀ (cands : List DetectTruck) (hubs : List VirtualHub) (opp : DetectedOpportunity),
      detectLoop truckA routeA cands hubs = some opp →
      ∃ h : VirtualHub, nearbyHubFirst hubs = some h ∧ opp.nearestHubId = h.id ∧ h.dist < 5 := by
  intro cands
  induction cands with
  | nil => intro hubs opp h; simp [detectLoop] at h
  | cons b rest ih =>
    intro hubs opp h
    cases hb : b.activeRoutes.head? with
    | none =>
      rw [show detectLoop truckA routeA (b :: rest) hubs = detectLoop truckA routeA rest hubs by
        simp [detectLoop, hb]] at h
      exact ih hubs opp h
    | some routeB =>
      cases hhub : nearbyHubFirst hubs with
      | none =>
        rw [show detectLoop truckA routeA (b :: rest) hubs = detectLoop truckA routeA rest hubs by
          simp [detectLoop, hb, hhub]] at h
        rw [detectLoop_none_of_no_hub truckA routeA rest hubs hhub] at h
        cases h
      | some hub =>
        have hdist : hub.dist < 5 := by
          have := List.find?_some hhub
          simpa using this
        simp only [detectLoop, hb, hhub] at h
        split at h
        · refine ⟨hub, rfl, ?_, hdist⟩
          obtain rfl := Option.some.inj h
          rfl
        · obtain ⟨h0, hh0, hrest⟩ := ih hubs opp h
          rw [hhub] at hh0
          exact ⟨h0, hh0, hrest⟩

/- ===== Claim theorems ===== -/

-- ===== C1 =====

/-- C1 counterexample: a truck whose maxWeight is set to 0 is treated as
unbounded by the JS falsiness of the capacity expression, so the allocator
creates a route whose summed weight 1 exceeds the set limit 0, refuting the
claim that every set limit bounds the route. -/
theorem C1_zero_limit_counterexample :
    (allocateGreedy [zeroLimitTruck] [unitDelivery]).1 =
      [⟨zeroLimitTruck, [unitDelivery], 1, 0⟩] ∧
    zeroLimitTruck.maxWeight = some 0 ∧
    ¬ ((([unitDelivery].map Delivery.cargoWeight).sum : ℚ) ≤ 0) := by
  refine ⟨?_, rfl, by norm_num [unitDelivery]⟩
  norm_num [allocateGreedy, fillTruck, fitsLimit, zeroLimitTruck, unitDelivery]

/-- C1 (amended): every route created by an allocation run satisfies the
capacity bound of its truck on each dimension whose limit is set to a nonzero
value - the summed delivery weight stays within maxWeight and the summed
volume within maxVolume - while an absent limit, and by JS falsiness also a
zero limit, is treated as unbounded and accepts regardless of accumulated
load. -/
theorem C1_capacity_bound_nonzero_limits :
    ∀ (ts : List Truck) (ds : List Delivery) (a : Allocation),
      a ∈ (allocateGreedy ts ds).1 →
      (∀ m : ℚ, a.truck.maxWeight = some m → m ≠ 0 →
        (a.deliveries.map Delivery.cargoWeight).sum ≤ m) ∧
      (∀ m : ℚ, a.truck.maxVolume = some m → m ≠ 0 →
        (a.deliveries.map Delivery.cargoVolumeLtrs).sum ≤ m) ∧
      (∀ x : ℚ, fitsLimit none x = true) ∧
      (∀ x : ℚ, fitsLimit (some 0) x = true) := by
  intro ts ds a ha
  obtain ⟨_, hw, hv, hsw, hsv⟩ := allocateGreedy_mem a ts ds ha
  refine ⟨?_, ?_, fun x => rfl, fun x => rfl⟩
  · intro m hm hm0
    rw [hm] at hw
    exact hsw ▸ fitsLimit_le hw hm0
  · intro m hm hm0
    rw [hm] at hv
    exact hsv ▸ fitsLimit_le hv hm0

/-- C1 witness: the demo truck with maxWeight 5 receives deliveries of weights
2 and 3, and the bound 2 + 3 less-or-equal 5 is obtained from the theorem. -/
theorem C1_capacity_bound_nonzero_limits_witness :
    (⟨demoTruck, [demoD1, demoD2], 5, 0⟩ : Allocation) ∈
      (allocateGreedy [demoTruck] [demoD1, demoD2, demoD3]).1 ∧
    (([demoD1, demoD2].map Delivery.cargoWeight).sum : ℚ) ≤ 5 := by
  have hmem : (⟨demoTruck, [demoD1, demoD2], 5, 0⟩ : Allocation) ∈
      (allocateGreedy [demoTruck] [demoD1, demoD2, demoD3]).1 := by
    norm_num [allocateGreedy, fillTruck, fitsLimit, demoTruck, demoD1, demoD2, demoD3]
  exact ⟨hmem, (C1_capacity_bound_nonzero_limits [demoTruck] [demoD1, demoD2, demoD3]
    ⟨demoTruck, [demoD1, demoD2], 5, 0⟩ hmem).1 5 rfl (by norm_num)⟩

-- ===== C4 =====

/-- C4: the allocator consumes the delivery queue with one shared index and no
backtracking - the concatenation of the created routes delivery lists followed
by the leftover queue is exactly the input queue - a truck stops at the first
delivery that does not fit on the accumulated load, and on the scenario with
weights 2, 3, 4 and one truck of maxWeight 5 exactly one route is created
carrying the first two deliveries while the third stays PENDING. -/
theorem C4_single_pass_in_order :
    (∀ (ts : List Truck) (ds : List Delivery),
      ((allocateGreedy ts ds).1.map Allocation.deliveries).flatten
        ++ (allocateGreedy ts ds).2 = ds) ∧
    (∀ (t : Truck) (ds : List Delivery) (w v : ℚ) (d : Delivery) (rest : List Delivery),
      (fillTruck t ds w v).rest = d :: rest →
      (fitsLimit t.maxWeight ((fillTruck t ds w v).weight + d.cargoWeight)
        && fitsLimit t.maxVolume ((fillTruck t ds w v).volume + d.cargoVolumeLtrs)) = false) ∧
    allocateRoutes (some "C") [demoD1, demoD2, demoD3] [demoTruck] =
      .allocated [⟨demoTruck, [demoD1, demoD2], 5, 0⟩]
        [{ demoD1 with truckId := some 1, driverId := some 11, status := "ALLOCATED" },
         { demoD2 with truckId := some 1, driverId := some 11, status := "ALLOCATED" },
         demoD3] ∧
    demoD3.status = "PENDING" := by
  refine ⟨allocateGreedy_join, fillTruck_stops, ?_, rfl⟩
  have hc : ("C" : String).isEmpty = false := by decide
  norm_num [allocateRoutes, pendingDeliveriesFor, availableTrucksFor, allocateGreedy,
    fillTruck, fitsLimit, applyAllocations, demoTruck, demoD1, demoD2, demoD3,
    List.filter, List.find?, hc]

/-- C4 witness: in the scenario run the truck stopped exactly because the third
delivery did not fit: 5 + 4 exceeds the limit 5. -/
theorem C4_single_pass_in_order_witness :
    (fillTruck demoTruck [demoD1, demoD2, demoD3] 0 0).rest = [demoD3] ∧
    (fitsLimit demoTruck.maxWeight
        ((fillTruck demoTruck [demoD1, demoD2, demoD3] 0 0).weight + demoD3.cargoWeight)
      && fitsLimit demoTruck.maxVolume
        ((fillTruck demoTruck [demoD1, demoD2, demoD3] 0 0).volume + demoD3.cargoVolumeLtrs))
      = false := by
  have hrest : (fillTruck demoTruck [demoD1, demoD2, demoD3] 0 0).rest = [demoD3] := by
    norm_num [fillTruck, fitsLimit, demoTruck, demoD1, demoD2, demoD3]
  exact ⟨hrest, C4_single_pass_in_order.2.1 demoTruck [demoD1, demoD2, demoD3] 0 0
    demoD3 [] hrest⟩

/-- C8 counterexample: with two hubs inside the 5 km radius stored in the order
far-then-near, detect attaches the first stored hub (id 11 at 4 km) although
hub 12 at 1 km is strictly nearer, refuting the nearest-hub claim. -/
theorem C8_hub_not_nearest_counterexample :
    detectAbsorptionOpportunity absTruckA [absTruckA, absTruckB] twoHubs =
      some ⟨100, 200, 11, 4, 2, 3, 2, [7, 8], "PENDING"⟩ ∧
    (⟨12, 1⟩ : VirtualHub) ∈ twoHubs ∧ ((1 : ℚ) < 5) ∧ ((1 : ℚ) < 4) := by
  refine ⟨?_, by norm_num [twoHubs], by norm_num, by norm_num⟩
  norm_num [detectAbsorptionOpportunity, detectLoop, nearbyHubFirst, jsOr,
    absTruckA, absTruckB, twoHubs, List.filter, List.find?]

/-- C8 (amended): the hub attached to a created opportunity is the first hub in
store return order whose distance to the reported position is under 5 km (no
ordering by distance is applied); when no hub lies within 5 km every candidate
is skipped and detect returns none, including when a feasible candidate truck
exists. -/
theorem C8_hub_first_within_radius :
    ∀ (truckA : DetectTruck) (trucks : List DetectTruck) (hubs : List VirtualHub),
      ((∀ h ∈ hubs, ¬ h.dist < 5) →
        detectAbsorptionOpportunity truckA trucks hubs = none) ∧
      (∀ opp : DetectedOpportunity,
        detectAbsorptionOpportunity truckA trucks hubs = some opp →
        ∃ h : VirtualHub, nearbyHubFirst hubs = some h ∧ opp.nearestHubId = h.id ∧
          h.dist < 5) := by
  intro a trucks hubs
  constructor
  · intro hno
    have hfind : nearbyHubFirst hubs = none := by
      apply List.find?_eq_none.mpr
      intro h hh
      simpa using hno h hh
    cases hroute : a.activeRoutes.head? with
    | none => simp [detectAbsorptionOpportunity, hroute]
    | some routeA =>
      rw [show detectAbsorptionOpportunity a trucks hubs =
          detectLoop a routeA
            (trucks.filter (fun t => decide (t.id ≠ a.id) && decide (t.dist < 5))) hubs by
        simp [detectAbsorptionOpportunity, hroute]]
      exact detectLoop_none_of_no_hub a routeA _ hubs hfind
  · intro opp h
    cases hroute : a.activeRoutes.head? with
    | none => simp [detectAbsorptionOpportunity, hroute] at h
    | some routeA =>
      rw [show detectAbsorptionOpportunity a trucks hubs =
          detectLoop a routeA
            (trucks.filter (fun t => decide (t.id ≠ a.id) && decide (t.dist < 5))) hubs by
        simp [detectAbsorptionOpportunity, hroute]] at h
      exact detectLoop_hub_of_some a routeA _ hubs opp h

/-- C8 witness: a capacity-feasible candidate sits 4 km away, yet with the only
hub 9 km away detect returns none. -/
theorem C8_hub_first_within_radius_witness :
    absTruckB.dist < 5 ∧
    (jsOr absTruckA.maxWeight 0 - jsOr absTruckA.currentWeight 0
      ≥ absTruckB.currentWeight.getD 0) ∧
    detectAbsorptionOpportunity absTruckA [absTruckA, absTruckB] farHubs = none := by
  refine ⟨by norm_num [absTruckB], by norm_num [absTruckA, absTruckB, jsOr], ?_⟩
  exact (C8_hub_first_within_radius absTruckA [absTruckA, absTruckB] farHubs).1
    (by norm_num [farHubs])

/-- C2 counterexample: when the driver of route 2 has the larger workload the
losing route is route 1, yet handshake leaves the route-1 delivery completely
untouched - it is neither reassigned to the winning truck and driver nor
stamped ABSORPTION_TRANSFERRED - refuting the claim for the case in which the
route-2 driver wins. -/
theorem C2_losing_route_untouched_counterexample :
    workload lightDriver < workload busyDriver ∧
    handleHandshake (some oppLosingRoute1) [route1Delivery] =
      .completed busyDriver lightDriver
        { oppLosingRoute1 with status := "COMPLETED" } [route1Delivery] ∧
    route1Delivery.status ≠ "ABSORPTION_TRANSFERRED" ∧
    route1Delivery.truckId ≠ some busyTruck.id := by
  refine ⟨by norm_num [workload, jsOr, lightDriver, busyDriver], ?_, by decide, by decide⟩
  norm_num [handleHandshake, relayAssign, workload, jsOr, lightDriver, busyDriver,
    lightTruck, busyTruck, oppLosingRoute1, route1Delivery]

/-- C2 (amended): handshake marks the opportunity COMPLETED and bulk-reassigns
every delivery currently on route 2 - unconditionally route 2, not the losing
route - to the relay winner, i.e. to the truck and driver of route 1 when the
route-1 driver has greater-or-equal workload and to those of route 2
otherwise, with status ABSORPTION_TRANSFERRED; deliveries not on route 2 are
returned unchanged, so when the route-2 driver wins the losing route 1 keeps
its deliveries. -/
theorem C2_handshake_reassigns_route2 :
    ∀ (opp : HandshakeOpportunity) (ds : List HandshakeDelivery),
      (handleHandshake (some opp) ds).statusAfter = some "COMPLETED" ∧
      (handleHandshake (some opp) ds).deliveriesAfter.length = ds.length ∧
      (∀ i : Nat, i < ds.length →
        ((ds.getD i defaultHandshakeDelivery).optimizedRouteId = some opp.route2Id →
          ((handleHandshake (some opp) ds).deliveriesAfter.getD i
              defaultHandshakeDelivery).status = "ABSORPTION_TRANSFERRED" ∧
          ((handleHandshake (some opp) ds).deliveriesAfter.getD i
              defaultHandshakeDelivery).truckId =
            some (if workload opp.route1Truck.owner ≥ workload opp.route2Truck.owner
                  then opp.route1Truck.id else opp.route2Truck.id) ∧
          ((handleHandshake (some opp) ds).deliveriesAfter.getD i
              defaultHandshakeDelivery).driverId =
            some (if workload opp.route1Truck.owner ≥ workload opp.route2Truck.owner
                  then opp.route1Truck.owner.id else opp.route2Truck.owner.id)) ∧
        ((ds.getD i defaultHandshakeDelivery).optimizedRouteId ≠ some opp.route2Id →
          (handleHandshake (some opp) ds).deliveriesAfter.getD i defaultHandshakeDelivery
            = ds.getD i defaultHandshakeDelivery)) := by
  intro opp ds
  have hres : (handleHandshake (some opp) ds).deliveriesAfter =
      ds.map (fun d =>
        if d.optimizedRouteId = some opp.route2Id then
          { d with truckId := some (relayAssign opp.route1Truck.owner opp.route2Truck.owner
                      opp.route1Truck opp.route2Truck).masterTruckId,
                   driverId := some (relayAssign opp.route1Truck.owner opp.route2Truck.owner
                      opp.route1Truck opp.route2Truck).longHaulDriver.id,
                   status := "ABSORPTION_TRANSFERRED" }
        else d) := rfl
  refine ⟨rfl, by rw [hres]; exact List.length_map _ _, ?_⟩
  intro i hi
  have hi' : i < ((handleHandshake (some opp) ds).deliveriesAfter).length := by
    rw [hres, List.length_map]
    exact hi
  have hget : (handleHandshake (some opp) ds).deliveriesAfter.getD i defaultHandshakeDelivery =
      (fun d =>
        if d.optimizedRouteId = some opp.route2Id then
          { d with truckId := some (relayAssign opp.route1Truck.owner opp.route2Truck.owner
                      opp.route1Truck opp.route2Truck).masterTruckId,
                   driverId := some (relayAssign opp.route1Truck.owner opp.route2Truck.owner
                      opp.route1Truck opp.route2Truck).longHaulDriver.id,
                   status := "ABSORPTION_TRANSFERRED" }
        else d) (ds.getD i defaultHandshakeDelivery) := by
    rw [hres, List.getD_eq_getElem _ _ (by simpa using hi), List.getD_eq_getElem _ _ hi]
    simp only [List.getElem_map]
  constructor
  · intro hroute
    rw [hget]
    simp only [hroute, if_pos rfl]
    refine ⟨rfl, ?_, ?_⟩
    · by_cases hw : workload opp.route1Truck.owner ≥ workload opp.route2Truck.owner
      · simp [relayAssign, hw]
      · simp [relayAssign, hw]
    · by_cases hw : workload opp.route1Truck.owner ≥ workload opp.route2Truck.owner
      · simp [relayAssign, hw]
      · simp [relayAssign, hw]
  · intro hroute
    rw [hget]
    simp only [if_neg hroute]

/-- C2 witness: scenario C - route-1 driver workload 50 exceeds 20, so the
route-2 delivery moves to the route-1 truck and driver with status
ABSORPTION_TRANSFERRED, and the opportunity is COMPLETED. -/
theorem C2_handshake_reassigns_route2_witness :
    (handleHandshake (some oppScenarioC) [route2Delivery]).statusAfter = some "COMPLETED" ∧
    ((handleHandshake (some oppScenarioC) [route2Delivery]).deliveriesAfter.getD 0
        defaultHandshakeDelivery).status = "ABSORPTION_TRANSFERRED" ∧
    ((handleHandshake (some oppScenarioC) [route2Delivery]).deliveriesAfter.getD 0
        defaultHandshakeDelivery).truckId = some truck50.id ∧
    ((handleHandshake (some oppScenarioC) [route2Delivery]).deliveriesAfter.getD 0
        defaultHandshakeDelivery).driverId = some driver50.id := by
  have h := C2_handshake_reassigns_route2 oppScenarioC [route2Delivery]
  have hcase := (h.2.2 0 (by norm_num)).1 (by decide)
  have hwl : workload oppScenarioC.route1Truck.owner ≥ workload oppScenarioC.route2Truck.owner := by
    norm_num [workload, jsOr, oppScenarioC, truck50, truck20, driver50, driver20]
  refine ⟨h.1, hcase.1, ?_, ?_⟩
  · rw [hcase.2.1, if_pos hwl]
    rfl
  · rw [hcase.2.2, if_pos hwl]
    rfl

/-- C3: accept realizes the 2x2 acceptance state table.  For an opportunity with
two distinct routes: a missing opportunity yields notFound; accepting with the
id of route 1 promotes to BOTH_ACCEPTED exactly when the current status is
ACCEPTED_BY_ROUTE2 and otherwise sets ACCEPTED_BY_ROUTE1, stamping the route-1
acceptance time; symmetrically for route 2; any other route id is rejected. -/
theorem C3_accept_state_table :
    ∀ (opp : AbsorptionOpportunity) (routeId : Nat) (now : ℚ),
      opp.route1Id ≠ opp.route2Id →
      acceptSynergy none routeId now = .notFound ∧
      (routeId = opp.route1Id →
        acceptSynergy (some opp) routeId now =
          .ok { opp with
                  status := if opp.status = "ACCEPTED_BY_ROUTE2" then "BOTH_ACCEPTED"
                            else "ACCEPTED_BY_ROUTE1",
                  acceptedByRoute1At := some now }) ∧
      (routeId = opp.route2Id →
        acceptSynergy (some opp) routeId now =
          .ok { opp with
                  status := if opp.status = "ACCEPTED_BY_ROUTE1" then "BOTH_ACCEPTED"
                            else "ACCEPTED_BY_ROUTE2",
                  acceptedByRoute2At := some now }) ∧
      (routeId ≠ opp.route1Id → routeId ≠ opp.route2Id →
        acceptSynergy (some opp) routeId now = .invalidRoute) := by
  intro opp routeId now hne
  refine ⟨rfl, ?_, ?_, ?_⟩
  · intro h
    subst h
    simp [acceptSynergy]
  · intro h
    subst h
    simp [acceptSynergy, hne]
  · intro h1 h2
    simp [acceptSynergy, Ne.symm h1, Ne.symm h2]

/-- C3 witness: a concrete run of every clause of the state table. -/
theorem C3_accept_state_table_witness :
    acceptSynergy (some ⟨1, 2, "ACCEPTED_BY_ROUTE2", none, none⟩) 1 0 =
      .ok ⟨1, 2, "BOTH_ACCEPTED", some 0, none⟩ ∧
    acceptSynergy (some ⟨1, 2, "PENDING", none, none⟩) 2 0 =
      .ok ⟨1, 2, "ACCEPTED_BY_ROUTE2", none, some 0⟩ ∧
    acceptSynergy (some ⟨1, 2, "PENDING", none, none⟩) 7 0 = .invalidRoute ∧
    acceptSynergy none 1 0 = .notFound := by
  refine ⟨?_, ?_, ?_, ?_⟩
  · have h := (C3_accept_state_table ⟨1, 2, "ACCEPTED_BY_ROUTE2", none, none⟩ 1 0
      (by decide)).2.1 rfl
    simpa using h
  · have h := (C3_accept_state_table ⟨1, 2, "PENDING", none, none⟩ 2 0
      (by decide)).2.2.1 rfl
    simpa using h
  · exact (C3_accept_state_table ⟨1, 2, "PENDING", none, none⟩ 7 0
      (by decide)).2.2.2 (by decide) (by decide)
  · exact (C3_accept_state_table ⟨1, 2, "PENDING", none, none⟩ 1 0 (by decide)).1

/-- C10: accept guards only on route identity, never on the current status.
Accepting with route 1 overwrites any status other than ACCEPTED_BY_ROUTE2
(including BOTH_ACCEPTED, COMPLETED and EXPIRED) to ACCEPTED_BY_ROUTE1, and
symmetrically for route 2, so terminal and fully-accepted states can be
demoted. -/
theorem C10_accept_overwrites_any_status :
    ∀ (opp : AbsorptionOpportunity) (now : ℚ),
      (opp.status ≠ "ACCEPTED_BY_ROUTE2" →
        acceptSynergy (some opp) opp.route1Id now =
          .ok { opp with status := "ACCEPTED_BY_ROUTE1", acceptedByRoute1At := some now }) ∧
      (opp.route2Id ≠ opp.route1Id → opp.status ≠ "ACCEPTED_BY_ROUTE1" →
        acceptSynergy (some opp) opp.route2Id now =
          .ok { opp with status := "ACCEPTED_BY_ROUTE2", acceptedByRoute2At := some now }) := by
  intro opp now
  constructor
  · intro hst
    simp [acceptSynergy, hst]
  · intro hne hst
    have h1 : opp.route1Id ≠ opp.route2Id := fun h => hne h.symm
    simp [acceptSynergy, h1, hst]

/-- C10 witness: a COMPLETED opportunity is demoted to ACCEPTED_BY_ROUTE1 by a
route-1 accept, and a BOTH_ACCEPTED one to ACCEPTED_BY_ROUTE2 by a route-2
accept. -/
theorem C10_accept_overwrites_any_status_witness :
    acceptSynergy (some ⟨1, 2, "COMPLETED", none, none⟩) 1 0 =
      .ok ⟨1, 2, "ACCEPTED_BY_ROUTE1", some 0, none⟩ ∧
    acceptSynergy (some ⟨1, 2, "BOTH_ACCEPTED", some 9, some 9⟩) 2 0 =
      .ok ⟨1, 2, "ACCEPTED_BY_ROUTE2", some 9, some 0⟩ := by
  constructor
  · have h := (C10_accept_overwrites_any_status ⟨1, 2, "COMPLETED", none, none⟩ 0).1
      (by decide)
    simpa using h
  · have h := (C10_accept_overwrites_any_status ⟨1, 2, "BOTH_ACCEPTED", some 9, some 9⟩ 0).2
      (by decide) (by decide)
    simpa using h

/-- C5: the relay rule is a total deterministic function of the two workloads,
workload being totalDistanceKm plus totalHoursWorked with missing values
counted as zero; the driver with greater-or-equal workload becomes the
long-haul driver (ties resolve to driver 1) and that driver keeps their own
truck as the master truck. -/
theorem C5_relay_rule :
    ∀ (d1 d2 : Driver) (t1 t2 : RelayTruck),
      t1.owner = d1 → t2.owner = d2 →
      (workload d1 ≥ workload d2 → relayAssign d1 d2 t1 t2 = ⟨d1, d2, t1.id⟩) ∧
      (workload d1 < workload d2 → relayAssign d1 d2 t1 t2 = ⟨d2, d1, t2.id⟩) ∧
      (workload d1 = workload d2 → (relayAssign d1 d2 t1 t2).longHaulDriver = d1) ∧
      (∀ (i : Nat) (n : String), workload ⟨i, n, none, none⟩ = 0) := by
  intro d1 d2 t1 t2 _ _
  refine ⟨?_, ?_, ?_, ?_⟩
  · intro h
    simp [relayAssign, h]
  · intro h
    simp [relayAssign, not_le.mpr h]
  · intro h
    simp [relayAssign, h.ge]
  · intro i n
    simp [workload, jsOr]

/-- C5 witness: workloads (10,5) against (3,2) give driver 1 the long haul
and his truck as master; an exact tie also resolves to driver 1. -/
theorem C5_relay_rule_witness :
    relayAssign ⟨1, "D1", some 10, some 5⟩ ⟨2, "D2", some 3, some 2⟩
        ⟨100, ⟨1, "D1", some 10, some 5⟩⟩ ⟨200, ⟨2, "D2", some 3, some 2⟩⟩ =
      ⟨⟨1, "D1", some 10, some 5⟩, ⟨2, "D2", some 3, some 2⟩, 100⟩ ∧
    (relayAssign ⟨3, "T1", some 4, some 1⟩ ⟨4, "T2", some 2, some 3⟩
        ⟨100, ⟨3, "T1", some 4, some 1⟩⟩ ⟨200, ⟨4, "T2", some 2, some 3⟩⟩).longHaulDriver =
      ⟨3, "T1", some 4, some 1⟩ := by
  constructor
  · exact (C5_relay_rule ⟨1, "D1", some 10, some 5⟩ ⟨2, "D2", some 3, some 2⟩
      ⟨100, ⟨1, "D1", some 10, some 5⟩⟩ ⟨200, ⟨2, "D2", some 3, some 2⟩⟩ rfl rfl).1
      (by norm_num [workload, jsOr])
  · exact (C5_relay_rule ⟨3, "T1", some 4, some 1⟩ ⟨4, "T2", some 2, some 3⟩
      ⟨100, ⟨3, "T1", some 4, some 1⟩⟩ ⟨200, ⟨4, "T2", some 2, some 3⟩⟩ rfl rfl).2.2.1
      (by norm_num [workload, jsOr])

/-- C6 counterexample: food and FOOD denote the same cargo type under the
case-insensitive table keying, yet areCompatible rejects the pair, because the
identity test of the code is a case-sensitive string comparison and no table
entry lists its own type. -/
theorem C6_case_mismatch_counterexample :
    ("food" : String) ≠ "FOOD" ∧ jsToUpperCase "food" = jsToUpperCase "FOOD" ∧
    areCompatible (some "food") (some "FOOD") = false := by
  decide

/-- C6 (amended): the compatibility check is fail-open on its base cases - a
missing or empty type on either side is compatible - and identical types are
compatible when the two strings are exactly equal; equality only up to letter
case is not covered by the identity rule and falls through to the table. -/
theorem C6_fail_open_and_exact_identity :
    (∀ t : Option String, areCompatible none t = true) ∧
    (∀ t : Option String, areCompatible t none = true) ∧
    (∀ t : Option String, areCompatible (some "") t = true) ∧
    (∀ t : Option String, areCompatible t (some "") = true) ∧
    (∀ s : String, areCompatible (some s) (some s) = true) := by
  refine ⟨?_, ?_, ?_, ?_, ?_⟩
  · intro t
    cases t <;> rfl
  · intro t
    cases t <;> rfl
  · intro t
    cases t with
    | none => rfl
    | some s =>
      simp only [areCompatible]
      rw [show ("" : String).isEmpty = true from by decide]
      simp
  · intro t
    cases t with
    | none => rfl
    | some s =>
      simp only [areCompatible]
      rw [show ("" : String).isEmpty = true from by decide]
      simp
  · intro s
    by_cases h : s.isEmpty <;> simp [areCompatible, h]

/-- C7 counterexample: no asymmetric pair exists - for every two distinct
types in the authored table the lookup answers the same in both directions,
refuting the claimed existence of a direction-dependent pair. -/
theorem C7_no_asymmetric_pair :
    ¬ ∃ x ∈ cargoTableKeys, ∃ y ∈ cargoTableKeys,
        x ≠ y ∧ areCompatible (some x) (some y) ≠ areCompatible (some y) (some x) := by
  decide

/-- C7 (amended): the lookup is directional - only the first types table entry
is consulted - but the authored table happens to be symmetric, so for every
pair of types in the table the two directions agree. -/
theorem C7_table_symmetric_over_keys :
    ∀ x ∈ cargoTableKeys, ∀ y ∈ cargoTableKeys,
      areCompatible (some x) (some y) = areCompatible (some y) (some x) := by
  decide

/-- C7 witness: both directions agree on the FRAGILE and CLOTHING pair. -/
theorem C7_table_symmetric_over_keys_witness :
    "FRAGILE" ∈ cargoTableKeys ∧ "CLOTHING" ∈ cargoTableKeys ∧
    areCompatible (some "FRAGILE") (some "CLOTHING")
      = areCompatible (some "CLOTHING") (some "FRAGILE") :=
  ⟨by decide, by decide,
   C7_table_symmetric_over_keys "FRAGILE" (by decide) "CLOTHING" (by decide)⟩

/-- C9: the allocation endpoint fails with a validation error when the company
identifier is omitted, returns the explicit nothing-to-do result when the
company has no pending deliveries, and fails with the capacity error when
pending deliveries exist but no truck is available and approved. -/
theorem C9_error_contract :
    ∀ (ds : List Delivery) (ts : List Truck) (cid : String),
      allocateRoutes none ds ts = .validationError ∧
      (cid.isEmpty = false → pendingDeliveriesFor cid ds = [] →
        allocateRoutes (some cid) ds ts = .nothingToDo) ∧
      (cid.isEmpty = false → pendingDeliveriesFor cid ds ≠ [] →
        availableTrucksFor cid ts = [] →
        allocateRoutes (some cid) ds ts = .capacityError) := by
  intro ds ts cid
  refine ⟨rfl, ?_, ?_⟩
  · intro hcid hpend
    simp [allocateRoutes, hcid, hpend]
  · intro hcid hpend htr
    have hp : (pendingDeliveriesFor cid ds).isEmpty = false := by
      simpa [List.isEmpty_iff] using hpend
    simp [allocateRoutes, hcid, hp, htr]

/-- C9 witness: the three contract clauses at concrete inputs - no company id,
a company with no pending deliveries, and pending deliveries with no trucks. -/
theorem C9_error_contract_witness :
    allocateRoutes none [demoD1] [demoTruck] = .validationError ∧
    allocateRoutes (some "X") [demoD1] [demoTruck] = .nothingToDo ∧
    allocateRoutes (some "C") [demoD1] [] = .capacityError := by
  refine ⟨(C9_error_contract [demoD1] [demoTruck] "X").1, ?_, ?_⟩
  · exact (C9_error_contract [demoD1] [demoTruck] "X").2.1 (by decide) (by decide)
  · exact (C9_error_contract [demoD1] [] "C").2.2 (by decide) (by decide) (by decide)
